import Mathlib

/-!
Shallow embedding of `src/libs/modules/global/logger/service.ts`
(class `LoggerService`) and, where the repository code is not under
`src/`, of the contracts the spec gives for it (the `ApiException`
type from `libs/utils` and the health controller/service, which are
exercised by `src/apps/main-api/src/modules/health/__tests__/controller.e2e.spec.ts`).

Modelling conventions:
* JavaScript values reaching the logger are dynamic; the subset of
  shapes the code inspects is captured by `ErrVal`: either a plain
  string or an object with the optional fields / methods the code
  reads (`name`, `message`, `stack`, `statusCode`, `status`,
  `context`, `traceid`, `getResponse`, `getStatus`).
* A missing property reads as `undefined`, modelled by `none`.
* Calling a missing method throws a `TypeError`; fallible operations
  therefore return `Except Unit _`, where `.error ()` models a thrown
  exception escaping the operation.
* JS truthiness tests (`Array.prototype.find(Boolean)`,
  `some(Boolean)`, `every(Boolean)`) are modelled by explicit
  truthiness functions: `undefined`, `""` and `0` are falsy.
-/

/-- Truthiness of an optional string as JavaScript sees it:
`undefined` and `""` are falsy. -/
def jsTruthyStr : Option String → Bool
  | some s => s ≠ ""
  | none => false

/-- Truthiness of an optional number: `undefined` and `0` are falsy. -/
def jsTruthyNat : Option Nat → Bool
  | some n => n ≠ 0
  | none => false

/-- JavaScript `[a, b, ...].find(Boolean)` over optional strings:
first truthy element, else `undefined`. -/
def firstTruthyStr : List (Option String) → Option String
  | [] => none
  | x :: xs => if jsTruthyStr x then x else firstTruthyStr xs

/-- JavaScript `[a, b, ...].find(Boolean)` over optional numbers. -/
def firstTruthyNat : List (Option Nat) → Option Nat
  | [] => none
  | x :: xs => if jsTruthyNat x then x else firstTruthyNat xs

/-- Structured response body, the shape produced by the NestJS
`HttpException.getResponse()` family and consumed by the logger when
it spreads `...response` into the logged object.  Only the keys the
logger or the claims ever read are tracked; each is optional because
an arbitrary structured object may lack any of them. -/
structure ErrorBody where
  statusCode : Option Nat
  message : Option String
  error : Option String
  context : Option String
deriving DecidableEq

/-- Value returned by a `getResponse` accessor: a string, a structured
object, or some other primitive (`typeof` neither `string` nor
`object`). -/
inductive RespVal where
  | rstr (s : String)
  | robj (b : ErrorBody)
  | rother
deriving DecidableEq

/-- Object shape of a non-string error value: every property the
logger reads, each optional.  `getResponse = some r` models an object
whose `getResponse` method exists and returns `r`; `getStatus = some n`
models an existing `getStatus` method returning `n`. -/
structure ErrObj where
  name : Option String
  message : Option String
  stack : Option String
  statusCode : Option Nat
  status : Option Nat
  context : Option String
  traceid : Option String
  getResponse : Option RespVal
  getStatus : Option Nat
deriving DecidableEq

/-- An error value passed to `error` / `fatal` / `getErrorResponse`:
either a plain string or an object. -/
inductive ErrVal where
  | str (s : String)
  | obj (o : ErrObj)
deriving DecidableEq

/-- Property read `error?.name` (a string has no `name` property). -/
def ErrVal.nameOf : ErrVal → Option String
  | .str _ => none
  | .obj o => o.name

/-- Property read `error?.message`. -/
def ErrVal.messageOf : ErrVal → Option String
  | .str _ => none
  | .obj o => o.message

/-- Property read `error.stack` (on a string this is `undefined`, not
a throw: property access on a primitive boxes it). -/
def ErrVal.stackOf : ErrVal → Option String
  | .str _ => none
  | .obj o => o.stack

/-- Property read `error['statusCode']`. -/
def ErrVal.statusCodeField : ErrVal → Option Nat
  | .str _ => none
  | .obj o => o.statusCode

/-- Property read `error.getResponse` (method lookup; `none` when the
value has no such method, in particular for every string). -/
def ErrVal.respOf : ErrVal → Option RespVal
  | .str _ => none
  | .obj o => o.getResponse

/-- Response of NestJS `new InternalServerErrorException(arg).getResponse()`
for a string-or-absent argument: a falsy argument (absent or `""`)
yields the default body `{statusCode: 500, message: 'Internal Server
Error'}`; a non-empty string yields `{statusCode: 500, message: arg,
error: 'Internal Server Error'}`. -/
def internalServerErrorExceptionResponse (arg : Option String) : ErrorBody :=
  if jsTruthyStr arg then
    { statusCode := some 500, message := arg, error := some "Internal Server Error",
      context := none }
  else
    { statusCode := some 500, message := some "Internal Server Error", error := none,
      context := none }

/-- Modelled from the spec: the application exception type `ApiException`
from `libs/utils`, which is not under `src/`.  Per the spec it exposes
`statusCode`, `message`, `context` and a response accessor, and its
declared status defaults to 500 (the health test expects
`new ApiException('Error')` to surface as status 500). -/
structure ApiExceptionVal where
  message : String
  statusCode : Nat
  context : Option String
deriving DecidableEq

/-- Modelled from the spec: constructing `new ApiException(message,
status, context)`; an absent (falsy) status defaults to 500. -/
def mkApiException (message : String) (status : Option Nat) (context : Option String) :
    ApiExceptionVal :=
  { message := message, statusCode := status.getD 500, context := context }

/-- Modelled from the spec: the response accessor of `ApiException`
returns a structured body carrying the declared status code, message
and context (the health test expects the body
`{statusCode: 500, message: 'Error'}`). -/
def ApiExceptionVal.getResponse (e : ApiExceptionVal) : ErrorBody :=
  { statusCode := some e.statusCode, message := some e.message, error := none,
    context := e.context }

deriving instance DecidableEq for Except

/-- One entry of the array built inside `getErrorResponse`: a
`conditional` flag and the entry's `value` thunk, reified as the
`Except` result of evaluating the thunk (evaluation happens lazily at
the call site in `error`). -/
structure RespCase where
  conditional : Bool
  value : Except Unit ErrorBody
deriving DecidableEq

/-- Conditional of case 1: `typeof error === 'string'`. -/
def case1cond : ErrVal → Bool
  | .str _ => true
  | .obj _ => false

/-- Value of case 1: `new InternalServerErrorException(error).getResponse()`
with `error` a string (the conditional guarantees the string branch;
the object branch is unreachable). -/
def case1value : ErrVal → Except Unit ErrorBody
  | .str s => .ok (internalServerErrorExceptionResponse (some s))
  | .obj _ => .error ()

/-- Conditional of case 2: `typeof error?.getResponse === 'function' &&
typeof error.getResponse() === 'string'`. -/
def case2cond (e : ErrVal) : Bool :=
  match e.respOf with
  | some (.rstr _) => true
  | _ => false

/-- Value of case 2: `new ApiException(error.getResponse(),
[error.getStatus(), error['status']].find(Boolean),
error['context']).getResponse()`.  The thunk calls `error.getStatus()`
unconditionally, so it throws when the object has `getResponse` but no
`getStatus` method. -/
def case2value : ErrVal → Except Unit ErrorBody
  | .str _ => .error ()
  | .obj o =>
    match o.getResponse with
    | some (.rstr s) =>
      match o.getStatus with
      | some st =>
        .ok (ApiExceptionVal.getResponse
          (mkApiException s (firstTruthyNat [some st, o.status]) o.context))
      | none => .error ()
    | _ => .error ()

/-- Conditional of case 3: `typeof error?.getResponse === 'function' &&
typeof error.getResponse() === 'object'`. -/
def case3cond (e : ErrVal) : Bool :=
  match e.respOf with
  | some (.robj _) => true
  | _ => false

/-- Value of case 3: `error?.getResponse()`, used verbatim. -/
def case3value : ErrVal → Except Unit ErrorBody
  | .str _ => .error ()
  | .obj o =>
    match o.getResponse with
    | some (.robj b) => .ok b
    | _ => .error ()

/-- Conditional of case 4: `[error?.name === Error.name,
error?.name == TypeError.name].some(Boolean)`. -/
def case4cond (e : ErrVal) : Bool :=
  e.nameOf = some "Error" || e.nameOf = some "TypeError"

/-- Value of case 4:
`new InternalServerErrorException(error.message).getResponse()`. -/
def case4value (e : ErrVal) : Except Unit ErrorBody :=
  .ok (internalServerErrorExceptionResponse e.messageOf)

/-- The four-entry array literal of `getErrorResponse`, in source
order. -/
def getErrorResponseCases (e : ErrVal) : List RespCase :=
  [ { conditional := case1cond e, value := case1value e },
    { conditional := case2cond e, value := case2value e },
    { conditional := case3cond e, value := case3value e },
    { conditional := case4cond e, value := case4value e } ]

/-- `getErrorResponse`: `.find((c) => c.conditional)` over the array,
returning the first entry whose conditional is truthy, else
`undefined`. -/
def getErrorResponseCase (e : ErrVal) : Option RespCase :=
  (getErrorResponseCases e).find? (fun c => c.conditional)

/-- The matched case's value thunk, evaluated (what `errorResponse?.value()`
produces in `error`). -/
def getErrorResponse (e : ErrVal) : Option (Except Unit ErrorBody) :=
  (getErrorResponseCase e).map RespCase.value

/-- An object with no recognized shape: every optional property
absent. Used as the base object in concrete instances. -/
def emptyObj : ErrObj where
  name := none
  message := none
  stack := none
  statusCode := none
  status := none
  context := none
  traceid := none
  getResponse := none
  getStatus := none

/-- Modelled from the spec: `uuidv4` from the external `uuid` library,
which generates a fresh random version-4 identifier on each call.
Randomness has no shallow embedding; the generator is modelled as a
deterministic supply indexed by a per-call counter, so that freshness
of the random identifier is represented by distinctness of the
counter.  The fixed prefix gives the value the canonical UUID shape;
the suffix makes the supply injective. -/
def uuidv4 (k : Nat) : String :=
  "00000000-0000-4000-8000-" ++ String.mk (List.replicate k '0')

/-- The bindings installed on the pino logger by `customProps` via
`setBindings`: exactly the keys `traceid`, `application`, `context`,
`path`, `timestamp`. -/
structure Bindings where
  traceid : Option String
  application : Option String
  context : Option String
  path : Option String
  timestamp : Option String
deriving DecidableEq

/-- Property read `this.pino.logger.bindings()?.tranceId`: the key
`tranceId` is not among the keys `setBindings` installs (`customProps`
sets `traceid`, `application`, `context`, `path`, `timestamp`), so
this lookup yields `undefined` on every bindings object. -/
def Bindings.tranceId (_ : Bindings) : Option String := none

/-- Bindings with nothing set. -/
def emptyBindings : Bindings where
  traceid := none
  application := none
  context := none
  path := none
  timestamp := none

/-- `getTraceId`: a string error gets `uuidv4()` (the next identifier
from the supply); otherwise
`[error.traceid, this.pino.logger.bindings()?.tranceId].find(Boolean)`. -/
def getTraceId (b : Bindings) (uuidSeed : Nat) : ErrVal → Option String
  | .str _ => some (uuidv4 uuidSeed)
  | .obj o => firstTruthyStr [o.traceid, Bindings.tranceId b]

/-- Wall-clock components of a JavaScript `Date` after luxon's
`setZone(process.env.TZ)` conversion; `getDateFormat` is a pure
function of these components once the process timezone is fixed. -/
structure JSDate where
  year : Nat
  month : Nat
  day : Nat
  hour : Nat
  minute : Nat
  second : Nat
deriving DecidableEq

/-- Left-pad the decimal rendering of `n` with `'0'` to `width`
characters, as luxon's numeric format tokens do. -/
def padZero (width n : Nat) : String :=
  String.mk (List.replicate (width - (toString n).length) '0') ++ toString n

/-- `getDateFormat(date, format)`: luxon
`DateTime.fromJSDate(date).setZone(process.env.TZ).toFormat(format)`,
modelled for the two format strings the service uses
(`'yyyy-MM'` for the index name, the default
`'dd/MM/yyyy HH:mm:ss'` for timestamps). -/
def getDateFormat (d : JSDate) (format : String) : String :=
  if format = "yyyy-MM" then
    padZero 4 d.year ++ "-" ++ padZero 2 d.month
  else
    padZero 2 d.day ++ "/" ++ padZero 2 d.month ++ "/" ++ padZero 4 d.year ++ " " ++
      padZero 2 d.hour ++ ":" ++ padZero 2 d.minute ++ ":" ++ padZero 2 d.second

/-- The constructor's index-name derivation:
`monorepo-logs-${this.getDateFormat(new Date(), 'yyyy-MM')}` where
`now` is the construction-time date. -/
def LoggerService.indexName (now : JSDate) : String :=
  "monorepo-logs-" ++ getDateFormat now "yyyy-MM"

/-- The structured object passed to `pino.logger.error` / `fatal`:
the spread of the normalized response (its `statusCode`, `message`
and `error` keys; its `context` key is overwritten by the explicit
`context` property) followed by the fixed properties the method adds. -/
structure LogRecord where
  statusCode : Option Nat
  message : Option String
  error : Option String
  context : Option String
  type : Option String
  traceid : Option String
  timestamp : String
  application : Option String
  stack : Option String
deriving DecidableEq

/-- The `response` local of `error`:
`error?.name === ApiException.name ? {statusCode: error['statusCode'],
message: error?.message} : errorResponse?.value()`.  When the name is
not `'ApiException'`, the matched case's thunk is evaluated here and
may throw; no matched case gives `undefined` (`.ok none`). -/
def errorResponseOf (e : ErrVal) : Except Unit (Option ErrorBody) :=
  if e.nameOf = some "ApiException" then
    .ok (some { statusCode := e.statusCodeField, message := e.messageOf,
                error := none, context := none })
  else
    match getErrorResponseCase e with
    | none => .ok none
    | some c =>
      match c.value with
      | .ok bdy => .ok (some bdy)
      | .error u => .error u

/-- Method `error(error, message?, context?)` of `LoggerService`.
State the method reads is passed explicitly: `app` (`this.app`),
`b` (the current pino bindings), `uuidSeed` (the uuid supply counter),
`now` (the current date).  The second positional argument only colours
the console message line (`red(message)`) and does not enter the
structured record, so it is unused here.  The result is the structured
object handed to `pino.logger.error` (spreading `...response` of an
`undefined` response contributes no keys), or `.error ()` when
evaluating `errorResponse?.value()` throws. -/
def LoggerService.error (app : Option String) (b : Bindings) (uuidSeed : Nat)
    (now : JSDate) (e : ErrVal) (_message : Option String) (context : Option String) :
    Except Unit LogRecord :=
  (errorResponseOf e).map fun rb =>
    { statusCode := rb.bind ErrorBody.statusCode
      message := rb.bind ErrorBody.message
      error := rb.bind ErrorBody.error
      context := firstTruthyStr [context, app]
      type := firstTruthyStr
        [if e.nameOf = some "Error" then some "ApiException" else none, e.nameOf]
      traceid := getTraceId b uuidSeed e
      timestamp := getDateFormat now "dd/MM/yyyy HH:mm:ss"
      application := app
      stack := e.stackOf }

/-- Method `fatal(error, message?, context?)` of `LoggerService`.
It spreads `...(error.getResponse() as object)` unconditionally: when
the value has no `getResponse` method (every string in particular)
the call throws a `TypeError`, modelled as `.error ()`.  Spreading a
non-object response (a string or other primitive) contributes none of
the tracked keys. -/
def LoggerService.fatal (app : Option String) (b : Bindings) (uuidSeed : Nat)
    (now : JSDate) (e : ErrVal) (_message : Option String) (context : Option String) :
    Except Unit LogRecord :=
  match e with
  | .str _ => .error ()
  | .obj o =>
    match o.getResponse with
    | none => .error ()
    | some r =>
      let bdy : ErrorBody :=
        match r with
        | .robj bdy => bdy
        | _ => { statusCode := none, message := none, error := none, context := none }
      .ok { statusCode := bdy.statusCode
            message := bdy.message
            error := bdy.error
            context := firstTruthyStr [context, app]
            type := o.name
            traceid := getTraceId b uuidSeed (.obj o)
            timestamp := getDateFormat now "dd/MM/yyyy HH:mm:ss"
            application := app
            stack := o.stack }

/-- Log levels the `customLogLevel` hook can return. -/
inductive PinoLevel where
  | error
  | silent
  | info
deriving DecidableEq

/-- The `customLogLevel(res, error)` hook of the pino-http
configuration: `[res.statusCode >= 400, error].some(Boolean)` gives
`'error'`; otherwise `[res.statusCode >= 300, res.statusCode <=
400].every(Boolean)` gives `'silent'`; otherwise `'info'`.  `err`
models truthiness of the attached error. -/
def customLogLevel (statusCode : Nat) (err : Bool) : PinoLevel :=
  if decide (statusCode ≥ 400) || err then .error
  else if decide (statusCode ≥ 300) && decide (statusCode ≤ 400) then .silent
  else .info

/-- Modelled from the spec: the health service result — the fixed
readiness text on success, or a failure carrying an `ApiException`
(the service and controller sources are not under `src/`; the
contract is taken from the spec's section 4.1 and the e2e test). -/
inductive HealthResult where
  | ok (text : String)
  | fail (e : ApiExceptionVal)
deriving DecidableEq

/-- An HTTP response as observed by the e2e test: the status and
either a plain-text body or a JSON `{statusCode, message}` body. -/
structure HttpResponse where
  status : Nat
  bodyText : Option String
  bodyStatusCode : Option Nat
  bodyMessage : Option String
deriving DecidableEq

/-- Modelled from the spec: the `GET /health` controller — on service
success respond 200 with the plain text; on failure respond with the
error's declared status code (default 500) and a JSON body
`{statusCode, message}`. -/
def healthEndpoint : HealthResult → HttpResponse
  | .ok t => { status := 200, bodyText := some t, bodyStatusCode := none, bodyMessage := none }
  | .fail e =>
    { status := e.statusCode, bodyText := none,
      bodyStatusCode := some e.statusCode, bodyMessage := some e.message }

/-- A fixed sample date for concrete evaluations. -/
def sampleDate : JSDate where
  year := 2024
  month := 5
  day := 15
  hour := 12
  minute := 0
  second := 0

/-- A value matching none of the normalization cases: an object named
`"Weird"` with no other property. -/
def unknownShapeError : ErrVal :=
  .obj { emptyObj with name := some "Weird" }

/-- A value named `"Error"` whose `getResponse` method returns a
structured object with status code 404. -/
def errorNamedWithObjResponse : ErrVal :=
  .obj { emptyObj with
           name := some "Error",
           message := some "shadowed",
           getResponse := some (.robj
             { statusCode := some 404, message := some "nope", error := none,
               context := none }) }

/-- Bindings as `customProps` installs them during a request, with the
trace id set. -/
def boundBindings : Bindings :=
  { emptyBindings with traceid := some "abc-123" }

/-- A bare generic-error shape: named `"Error"` with a message and no
response accessor. -/
def errorNamedSample : ErrVal :=
  .obj { emptyObj with name := some "Error", message := some "oops" }

/-- The record `error` emits for `errorNamedSample` with no
application, empty bindings, uuid counter 0 and the sample date. -/
def errorNamedRecord : LogRecord where
  statusCode := some 500
  message := some "oops"
  error := some "Internal Server Error"
  context := none
  type := some "ApiException"
  traceid := none
  timestamp := getDateFormat sampleDate "dd/MM/yyyy HH:mm:ss"
  application := none
  stack := none

/-- The record `error` emits for the string `"boom"` with no
application, empty bindings, uuid counter 0 and the sample date. -/
def boomRecord : LogRecord where
  statusCode := some 500
  message := some "boom"
  error := some "Internal Server Error"
  context := none
  type := none
  traceid := some (uuidv4 0)
  timestamp := getDateFormat sampleDate "dd/MM/yyyy HH:mm:ss"
  application := none
  stack := none

/-- A bare `TypeError`-shaped object with a non-empty message and no
response accessor. -/
def typeErrorSample : ErrObj :=
  { emptyObj with name := some "TypeError", message := some "bad" }

/-! ## Helper lemmas -/

theorem uuidv4_length (k : Nat) : (uuidv4 k).length = 24 + k := by
  simp [uuidv4, String.length_append, String.length]
  omega

theorem uuidv4_ne_empty (k : Nat) : uuidv4 k ≠ "" := by
  intro h
  have hlen := congrArg String.length h
  rw [uuidv4_length] at hlen
  simp [String.length] at hlen

theorem uuidv4_injective {k l : Nat} (h : k ≠ l) : uuidv4 k ≠ uuidv4 l := by
  intro he
  have hlen := congrArg String.length he
  rw [uuidv4_length, uuidv4_length] at hlen
  omega

/-- The `.find((c) => c.conditional)` over the four-entry array is the
expected first-match cascade. -/
theorem getErrorResponseCase_cascade (e : ErrVal) :
    getErrorResponseCase e =
      if case1cond e then some { conditional := case1cond e, value := case1value e }
      else if case2cond e then some { conditional := case2cond e, value := case2value e }
      else if case3cond e then some { conditional := case3cond e, value := case3value e }
      else if case4cond e then some { conditional := case4cond e, value := case4value e }
      else none := by
  unfold getErrorResponseCase getErrorResponseCases
  cases h1 : case1cond e <;> cases h2 : case2cond e <;> cases h3 : case3cond e <;>
    cases h4 : case4cond e <;> simp [List.find?, h1, h2, h3, h4]

/-- `error` returns `.ok r` exactly when the response computation does
not throw, and then `r` is the record the method builds. -/
theorem LoggerService.error_ok_iff (app : Option String) (b : Bindings) (k : Nat)
    (d : JSDate) (e : ErrVal) (m c : Option String) (r : LogRecord) :
    LoggerService.error app b k d e m c = .ok r ↔
      ∃ rb, errorResponseOf e = .ok rb ∧
        r = { statusCode := rb.bind ErrorBody.statusCode
              message := rb.bind ErrorBody.message
              error := rb.bind ErrorBody.error
              context := firstTruthyStr [c, app]
              type := firstTruthyStr
                [if e.nameOf = some "Error" then some "ApiException" else none, e.nameOf]
              traceid := getTraceId b k e
              timestamp := getDateFormat d "dd/MM/yyyy HH:mm:ss"
              application := app
              stack := e.stackOf } := by
  unfold LoggerService.error
  cases h : errorResponseOf e <;> simp [Except.map, h, eq_comm]

theorem internalServerError_statusCode (arg : Option String) :
    (internalServerErrorExceptionResponse arg).statusCode = some 500 := by
  unfold internalServerErrorExceptionResponse
  split <;> rfl

theorem internalServerError_message_isSome (arg : Option String) :
    (internalServerErrorExceptionResponse arg).message.isSome = true := by
  unfold internalServerErrorExceptionResponse
  split
  · cases arg with
    | none => simp [jsTruthyStr] at *
    | some s => rfl
  · rfl


/-! ## Claim theorems -/

/-- C2: the error-normalization function evaluates its cases in the
fixed order (1) string value, (2) response accessor returning a
string, (3) response accessor returning a structured object,
(4) declared type name exactly `Error` or `TypeError`; for every input
the first case whose condition holds determines the result, and an
input matching none of the four cases receives no special handling
(`getErrorResponse` yields `undefined`). -/
theorem C2_first_match_wins (e : ErrVal) :
    (case1cond e = true → getErrorResponse e = some (case1value e)) ∧
    (case1cond e = false → case2cond e = true → getErrorResponse e = some (case2value e)) ∧
    (case1cond e = false → case2cond e = false → case3cond e = true →
      getErrorResponse e = some (case3value e)) ∧
    (case1cond e = false → case2cond e = false → case3cond e = false → case4cond e = true →
      getErrorResponse e = some (case4value e)) ∧
    (case1cond e = false → case2cond e = false → case3cond e = false → case4cond e = false →
      getErrorResponse e = none) := by
  unfold getErrorResponse
  rw [getErrorResponseCase_cascade]
  refine ⟨fun h1 => ?_, fun h1 h2 => ?_, fun h1 h2 h3 => ?_, fun h1 h2 h3 h4 => ?_,
    fun h1 h2 h3 h4 => ?_⟩ <;> simp [*]

/-- Witness for C2 at a concrete string input: case 1 matches first. -/
theorem C2_witness :
    getErrorResponse (ErrVal.str "boom") = some (case1value (ErrVal.str "boom")) :=
  (C2_first_match_wins (ErrVal.str "boom")).1 rfl

/-- C3 (code bug): `fatal` calls `error.getResponse()` unconditionally,
so a malformed value without a response accessor — a plain string, or
a bare `Error`-shaped object — makes `fatal` throw a `TypeError`
instead of degrading to partial logging. -/
theorem C3_fatal_throws_on_malformed :
    LoggerService.fatal none emptyBindings 0 sampleDate (.str "boom") none none
      = .error () ∧
    LoggerService.fatal none emptyBindings 0 sampleDate
        (.obj { emptyObj with name := some "Error", message := some "oops" }) none none
      = .error () := by
  exact ⟨rfl, rfl⟩

/-- C4 (code bug): the fallback branch of `getTraceId` reads the
misspelled bindings key `tranceId`, which `setBindings` never
populates (it sets `traceid`); therefore, for a non-string error with
no own `traceid`, the resolved trace id is `undefined` even though the
current binding holds a trace id. -/
theorem C4_binding_fallback_lost :
    boundBindings.traceid = some "abc-123" ∧
    getTraceId boundBindings 0 (.obj emptyObj) = none := by
  exact ⟨rfl, rfl⟩

/-- C5: every string value hits normalization case 1, whose result has
statusCode 500, and its trace id is the next identifier from the uuid
supply — non-empty and distinct for distinct calls. -/
theorem C5_string_error_normalization (s : String) (b : Bindings) (k l : Nat)
    (hkl : k ≠ l) :
    getErrorResponse (.str s) = some (.ok (internalServerErrorExceptionResponse (some s))) ∧
    (internalServerErrorExceptionResponse (some s)).statusCode = some 500 ∧
    getTraceId b k (.str s) = some (uuidv4 k) ∧
    uuidv4 k ≠ "" ∧
    uuidv4 k ≠ uuidv4 l := by
  refine ⟨rfl, internalServerError_statusCode (some s), rfl, uuidv4_ne_empty k,
    uuidv4_injective hkl⟩

/-- Witness for C5 at a concrete string and two distinct call
counters. -/
theorem C5_witness :
    getErrorResponse (.str "boom")
      = some (.ok (internalServerErrorExceptionResponse (some "boom"))) ∧
    uuidv4 0 ≠ uuidv4 1 :=
  ⟨(C5_string_error_normalization "boom" emptyBindings 0 1 (by decide)).1,
   (C5_string_error_normalization "boom" emptyBindings 0 1 (by decide)).2.2.2.2⟩

/-- C7: the access-log level is `error` when the response status is at
least 400 or an error is attached, `silent` for a 3xx status without
either, and `info` otherwise. -/
theorem C7_customLogLevel_classification (statusCode : Nat) (err : Bool) :
    (statusCode ≥ 400 ∨ err = true → customLogLevel statusCode err = .error) ∧
    (statusCode < 400 → err = false → 300 ≤ statusCode →
      customLogLevel statusCode err = .silent) ∧
    (statusCode < 300 → err = false → customLogLevel statusCode err = .info) := by
  unfold customLogLevel
  refine ⟨fun h => ?_, fun h1 h2 h3 => ?_, fun h1 h2 => ?_⟩
  · rcases h with h | h
    · simp [h]
    · simp [h]
  · subst h2
    have h4 : ¬ (statusCode ≥ 400) := by omega
    have h5 : statusCode ≤ 400 := by omega
    simp [h4, h5, h3]
  · subst h2
    have h4 : ¬ (statusCode ≥ 400) := by omega
    have h5 : ¬ (300 ≤ statusCode) := by omega
    simp [h4, h5]

/-- Witness for C7: a 404 without attached error is classified
`error`. -/
theorem C7_witness : customLogLevel 404 false = .error :=
  (C7_customLogLevel_classification 404 false).1 (Or.inl (by decide))

/-- C8: the Elasticsearch index name is a deterministic function of
the (zone-adjusted) date, and on 2024-05-15 it is exactly
`monorepo-logs-2024-05`. -/
theorem C8_indexName_deterministic :
    (∀ d1 d2 : JSDate, d1 = d2 → LoggerService.indexName d1 = LoggerService.indexName d2) ∧
    LoggerService.indexName sampleDate = "monorepo-logs-2024-05" := by
  refine ⟨fun d1 d2 h => by rw [h], by decide⟩

/-- Witness for C8: determinism applied at the sample date. -/
theorem C8_witness : LoggerService.indexName sampleDate = LoggerService.indexName sampleDate :=
  C8_indexName_deterministic.1 sampleDate sampleDate rfl

/-- C9: when the health service fails with an application error whose
message is `"Error"` (declared status defaulting to 500), the
`GET /health` endpoint responds with HTTP status 500 and the JSON body
`{statusCode: 500, message: 'Error'}`. -/
theorem C9_health_error_response :
    healthEndpoint (.fail (mkApiException "Error" none none)) =
      { status := 500, bodyText := none, bodyStatusCode := some 500,
        bodyMessage := some "Error" } := by
  decide

/-- C10: every value passed to `error` whose declared name is exactly
`Error` gets the type tag `ApiException` in the emitted record: the
object literal `{Error: ApiException.name}[error?.name]` remaps the
name before the fallback to the value's own name. -/
theorem C10_error_name_remapped (app : Option String) (b : Bindings) (k : Nat)
    (d : JSDate) (e : ErrVal) (m c : Option String) (r : LogRecord)
    (hname : e.nameOf = some "Error")
    (hok : LoggerService.error app b k d e m c = .ok r) :
    r.type = some "ApiException" := by
  rw [LoggerService.error_ok_iff] at hok
  obtain ⟨rb, -, hr⟩ := hok
  subst hr
  simp [hname, firstTruthyStr, jsTruthyStr]

/-- Witness for C10: the concrete bare `Error`-shaped value is tagged
`ApiException` in its emitted record. -/
theorem C10_witness : errorNamedRecord.type = some "ApiException" :=
  C10_error_name_remapped none emptyBindings 0 sampleDate errorNamedSample none none
    errorNamedRecord rfl (by decide)

/-- Counterexample for C6 as stated: a value whose declared name is
exactly `Error` but whose `getResponse` returns a structured object is
normalized by case 3 (first match wins), so its normalized status code
is the object's 404, not 500. -/
theorem C6_counterexample :
    ErrVal.nameOf errorNamedWithObjResponse = some "Error" ∧
    (getErrorResponse errorNamedWithObjResponse).map (Except.map ErrorBody.statusCode)
      = some (.ok (some 404)) ∧
    ¬ (getErrorResponse errorNamedWithObjResponse).map (Except.map ErrorBody.statusCode)
      = some (.ok (some 500)) := by
  decide

/-- C6 (amended): every non-string value whose declared type name is
exactly `Error` or `TypeError` and which does not expose a response
accessor is normalized by case 4: the result has statusCode 500 and —
whenever the original message is a non-empty string — message equal to
the original value's message. -/
theorem C6_amended_generic_error (o : ErrObj)
    (hname : o.name = some "Error" ∨ o.name = some "TypeError")
    (hresp : o.getResponse = none) :
    getErrorResponse (.obj o) = some (.ok (internalServerErrorExceptionResponse o.message)) ∧
    (internalServerErrorExceptionResponse o.message).statusCode = some 500 ∧
    (∀ msg, o.message = some msg → msg ≠ "" →
      (internalServerErrorExceptionResponse o.message).message = some msg) := by
  have h2 : case2cond (.obj o) = false := by simp [case2cond, ErrVal.respOf, hresp]
  have h3 : case3cond (.obj o) = false := by simp [case3cond, ErrVal.respOf, hresp]
  have h4 : case4cond (.obj o) = true := by
    rcases hname with h | h <;> simp [case4cond, ErrVal.nameOf, h]
  refine ⟨?_, internalServerError_statusCode o.message, ?_⟩
  · unfold getErrorResponse
    rw [getErrorResponseCase_cascade]
    simp [case1cond, h2, h3, h4, case4value, ErrVal.messageOf]
  · intro msg hm hne
    unfold internalServerErrorExceptionResponse
    rw [hm]
    simp [jsTruthyStr, hne]

/-- Witness for C6 (amended) at a concrete bare `TypeError` value. -/
theorem C6_witness :
    getErrorResponse (.obj typeErrorSample)
      = some (.ok (internalServerErrorExceptionResponse typeErrorSample.message)) ∧
    (internalServerErrorExceptionResponse typeErrorSample.message).message = some "bad" :=
  ⟨(C6_amended_generic_error typeErrorSample (Or.inr rfl) rfl).1,
   (C6_amended_generic_error typeErrorSample (Or.inr rfl) rfl).2.2 "bad" rfl (by decide)⟩

/-- Counterexample for C1 as stated: a value matching none of the
normalization cases (an object named `"Weird"` with no other property)
is logged, but its record carries neither a statusCode nor a message,
so not every logged value carries a normalized ErrorRecord. -/
theorem C1_counterexample :
    (LoggerService.error none emptyBindings 0 sampleDate unknownShapeError none none).map
      LogRecord.statusCode = .ok none ∧
    (LoggerService.error none emptyBindings 0 sampleDate unknownShapeError none none).map
      LogRecord.message = .ok none := by
  decide

/-- C1 (amended): whenever `error` emits a record, the record carries
the single normalized response of the first matching shape — string
(statusCode 500 with a message), declared name `ApiException` (the
value's own statusCode and message fields), response accessor
returning a string (a status and that string as message), response
accessor returning a structured object (that object's statusCode and
message, present or not), declared name `Error`/`TypeError`
(statusCode 500 with a message) — while a value matching no shape
yields a record with no statusCode and no message; the type tag is
present exactly when the value has a truthy declared name, and the
stack is the value's own optional stack. -/
theorem C1_amended_normalization (app : Option String) (b : Bindings) (k : Nat)
    (d : JSDate) (e : ErrVal) (m c : Option String) (r : LogRecord)
    (hok : LoggerService.error app b k d e m c = .ok r) :
    (∀ s, e = .str s → r.statusCode = some 500 ∧ r.message.isSome = true) ∧
    (e.nameOf = some "ApiException" →
      r.statusCode = e.statusCodeField ∧ r.message = e.messageOf) ∧
    (e.nameOf ≠ some "ApiException" → ∀ s, e.respOf = some (.rstr s) →
      r.statusCode.isSome = true ∧ r.message = some s) ∧
    (e.nameOf ≠ some "ApiException" → ∀ bdy, e.respOf = some (.robj bdy) →
      r.statusCode = bdy.statusCode ∧ r.message = bdy.message) ∧
    (e.nameOf ≠ some "ApiException" → case1cond e = false → case2cond e = false →
      case3cond e = false → case4cond e = true →
      r.statusCode = some 500 ∧ r.message.isSome = true) ∧
    (e.nameOf ≠ some "ApiException" → case1cond e = false → case2cond e = false →
      case3cond e = false → case4cond e = false →
      r.statusCode = none ∧ r.message = none) ∧
    r.type.isSome = jsTruthyStr e.nameOf ∧
    r.stack = e.stackOf := by
  rw [LoggerService.error_ok_iff] at hok
  obtain ⟨rb, hrb, hr⟩ := hok
  subst hr
  refine ⟨?_, ?_, ?_, ?_, ?_, ?_, ?_, rfl⟩
  · intro s hs
    subst hs
    rw [show errorResponseOf (.str s)
        = .ok (some (internalServerErrorExceptionResponse (some s))) from rfl] at hrb
    injection hrb with h
    subst h
    exact ⟨internalServerError_statusCode (some s), internalServerError_message_isSome (some s)⟩
  · intro hname
    simp [errorResponseOf, hname] at hrb
    subst hrb
    exact ⟨rfl, rfl⟩
  · intro hname s hresp
    rcases e with t | o
    · simp [ErrVal.respOf] at hresp
    · simp only [ErrVal.respOf] at hresp
      simp only [ErrVal.nameOf] at hname
      have hcase : getErrorResponseCase (.obj o)
          = some { conditional := case2cond (.obj o), value := case2value (.obj o) } := by
        rw [getErrorResponseCase_cascade]
        simp [case1cond, case2cond, ErrVal.respOf, hresp]
      cases hst : o.getStatus with
      | none =>
        simp [errorResponseOf, ErrVal.nameOf, hname, hcase, case2value, hresp, hst] at hrb
      | some st =>
        simp [errorResponseOf, ErrVal.nameOf, hname, hcase, case2value, hresp, hst,
          ApiExceptionVal.getResponse] at hrb
        subst hrb
        exact ⟨rfl, rfl⟩
  · intro hname bdy hresp
    rcases e with t | o
    · simp [ErrVal.respOf] at hresp
    · simp only [ErrVal.respOf] at hresp
      simp only [ErrVal.nameOf] at hname
      have hcase : getErrorResponseCase (.obj o)
          = some { conditional := case3cond (.obj o), value := case3value (.obj o) } := by
        rw [getErrorResponseCase_cascade]
        simp [case1cond, case2cond, case3cond, ErrVal.respOf, hresp]
      simp [errorResponseOf, ErrVal.nameOf, hname, hcase, case3value, hresp] at hrb
      subst hrb
      exact ⟨rfl, rfl⟩
  · intro hname h1 h2 h3 h4
    have hcase : getErrorResponseCase e
        = some { conditional := case4cond e, value := case4value e } := by
      rw [getErrorResponseCase_cascade]
      simp [h1, h2, h3, h4]
    simp [errorResponseOf, hname, hcase, case4value] at hrb
    subst hrb
    exact ⟨internalServerError_statusCode e.messageOf,
      internalServerError_message_isSome e.messageOf⟩
  · intro hname h1 h2 h3 h4
    have hcase : getErrorResponseCase e = none := by
      rw [getErrorResponseCase_cascade]
      simp [h1, h2, h3, h4]
    simp [errorResponseOf, hname, hcase] at hrb
    subst hrb
    exact ⟨rfl, rfl⟩
  · cases hn : e.nameOf with
    | none => simp [firstTruthyStr, jsTruthyStr]
    | some nm =>
      by_cases hne : nm = "Error"
      · subst hne
        show (firstTruthyStr [if (some "Error" : Option String) = some "Error"
            then some "ApiException" else none, some "Error"]).isSome
          = jsTruthyStr (some "Error")
        decide
      · by_cases hnm : nm = ""
        · subst hnm
          show (firstTruthyStr [if (some "" : Option String) = some "Error"
              then some "ApiException" else none, some ""]).isSome
            = jsTruthyStr (some "")
          decide
        · simp [firstTruthyStr, jsTruthyStr, hne, hnm]

/-- Witness for C1 (amended) at the concrete string `"boom"`. -/
theorem C1_witness : boomRecord.statusCode = some 500 ∧ boomRecord.message.isSome = true :=
  (C1_amended_normalization none emptyBindings 0 sampleDate (.str "boom") none none
    boomRecord (by decide)).1 "boom" rfl
